import Mathlib

/-!
# Football News: proxy endpoints and client form controller

A shallow embedding of `api/subscribe.js`, `api/contact.js` and the two submit
listeners of `js/main.js`, followed by theorems about the request/response
contract of the handlers.

Conventions of the embedding.

* JavaScript values that reach the handlers (request bodies, parsed upstream
  bodies) are values of `JsVal`.
* A handler is an `async` function that suspends at its upstream call. What the
  upstream does is an input of the model (`Upstream`): the handler is evaluated
  against a given outcome of the awaited call, and the calls it issues are
  recorded in `Run.calls`. What `fetch` itself does with the request before
  anything is sent is `awaitFetch`, and `serve` runs a handler against it.
* Built-ins of the platform that are not code of the repository (`JSON.parse`,
  the texts of the `TypeError`s the engine raises) are fields of `Platform`.
-/

namespace FootballNews

/-! ## JavaScript values -/

/-- A JavaScript value as the handlers see it: `undefined` or a JSON value.
Numbers are kept as integers; the handlers only test them for truthiness. An
object lists its own properties, each key once. -/
inductive JsVal where
  | undefined
  | null
  | bool (b : Bool)
  | num (n : Int)
  | str (s : String)
  | arr (items : List JsVal)
  | obj (props : List (String × JsVal))

namespace JsVal

/-- The `ToBoolean` conversion used by `!x`, `x || y` and `if (x)`. -/
def truthy : JsVal → Bool
  | undefined => false
  | null => false
  | bool b => b
  | num n => n != 0
  | str s => s != ""
  | arr _ => true
  | obj _ => true

/-- Holds for `undefined` and `null`, the values on which a property read throws. -/
def isNullish : JsVal → Bool
  | undefined => true
  | null => true
  | _ => false

/-- Holds for `undefined` only. -/
def isUndefined : JsVal → Bool
  | undefined => true
  | _ => false

/-- The read `v.k` on a value that is not nullish, for a key `k` that no built-in
prototype defines (`name`, `email`, `message`, `success`): the own property of an
object, `undefined` on everything else. -/
def field (v : JsVal) (k : String) : JsVal :=
  match v with
  | obj props => (props.lookup k).getD undefined
  | _ => undefined

/-- The expression `a || b`. -/
def orElse (a b : JsVal) : JsVal :=
  if a.truthy then a else b

end JsVal

/-! ## Strings -/

/-- Whether the character list `s` begins with `t`. -/
def startsWith : List Char → List Char → Bool
  | _, [] => true
  | [], _ :: _ => false
  | c :: cs, d :: ds => c == d && startsWith cs ds

/-- Whether `needle` occurs in the character list as a contiguous block. -/
def includesChars (needle : List Char) : List Char → Bool
  | [] => needle.isEmpty
  | c :: cs => startsWith (c :: cs) needle || includesChars needle cs

/-- The method `String.prototype.includes` with one argument. -/
def strIncludes (s needle : String) : Bool :=
  includesChars needle.data s.data

/-! ## Exceptions and platform built-ins -/

/-- A thrown `Error`; the handlers only read its `message`. -/
structure JsError where
  message : String

/-- The run-time faults the engine raises as a `TypeError` in the handlers. -/
inductive Fault where
  | destructureNullish (prop : String) (source : JsVal)
  | readOfNullish (prop : String) (target : JsVal)
  | notCallable (prop : String) (receiver : JsVal)

/-- Built-ins the handlers call that are not code of the repository. -/
structure Platform where
  /-- The built-in `JSON.parse`: the parsed value, or the `SyntaxError` thrown -/
  jsonParse : String → Except JsError JsVal
  /-- The `TypeError` the engine raises for a fault -/
  typeError : Fault → JsError
  /-- The `TypeError` with which `fetch` rejects a request one of whose headers,
  given by name and value, does not hold a valid value -/
  headerError : String → String → JsError

/-- The read `v.k`: throws on `undefined` and `null`. -/
def getProp (P : Platform) (v : JsVal) (k : String) : Except JsError JsVal :=
  if v.isNullish then .error (P.typeError (.readOfNullish k v)) else .ok (v.field k)

/-- The declaration `const { k } = v`: throws on `undefined` and `null`. -/
def destructure (P : Platform) (v : JsVal) (k : String) : Except JsError JsVal :=
  if v.isNullish then .error (P.typeError (.destructureNullish k v)) else .ok (v.field k)

/-- The call `recv.includes(needle)` with a string argument, `recv` not nullish:
`String.prototype.includes` on a string, `Array.prototype.includes` (element
equality) on an array; on any other value `includes` is not a function. -/
def callIncludes (P : Platform) (name : String) (recv : JsVal) (needle : String) :
    Except JsError Bool :=
  match recv with
  | .str s => .ok (strIncludes s needle)
  | .arr items => .ok (items.any fun v => match v with
      | .str s => s == needle
      | _ => false)
  | v => .error (P.typeError (.notCallable name v))

/-- The call `recv?.includes(needle)`, converted to a boolean: `undefined`
(falsy) on a nullish receiver, `callIncludes` otherwise. -/
def optIncludes (P : Platform) (name : String) (recv : JsVal) (needle : String) :
    Except JsError Bool :=
  if recv.isNullish then .ok false else callIncludes P name recv needle

/-! ## Requests, responses, upstream -/

/-- The part of the incoming request the handlers read. -/
structure Request where
  method : String
  /-- The field `req.body`; `undefined` when the request carries none -/
  body : JsVal

/-- The process environment: the two credentials, absent when not configured. -/
structure Env where
  BREVO_API_KEY : Option String
  WEB3FORMS_ACCESS_KEY : Option String

/-- Truthiness of an environment variable: set and not the empty string. -/
def envTruthy : Option String → Bool
  | none => false
  | some k => k != ""

/-- The response under construction and, once ended, as sent. -/
structure Response where
  statusCode : Nat
  headers : List (String × String)
  /-- Absent for `res.end()`, the JSON value sent for `res.json(v)` -/
  body : Option JsVal

namespace Response

/-- The response object before the handler touches it. -/
def fresh : Response := ⟨200, [], none⟩

/-- The method `res.setHeader(k, v)`. -/
def setHeader (r : Response) (k v : String) : Response :=
  { r with headers := r.headers ++ [(k, v)] }

/-- The method `res.status(code)`. -/
def status (r : Response) (code : Nat) : Response :=
  { r with statusCode := code }

/-- The method `res.end()` with no argument. -/
def finish (r : Response) : Response :=
  { r with body := none }

/-- What `JSON.stringify` keeps of an object literal: the properties whose value
is not `undefined`. -/
def serialise : JsVal → JsVal
  | .obj props => .obj (props.filter fun p => !p.2.isUndefined)
  | v => v

/-- The method `res.json(v)`. -/
def json (r : Response) (v : JsVal) : Response :=
  { r with body := some (serialise v) }

end Response

/-- An outbound `fetch(url, { method, headers, body: JSON.stringify(body) })`. -/
structure Outbound where
  url : String
  method : String
  headers : List (String × String)
  body : JsVal

/-- The upstream response as the handler reads it. -/
structure UpstreamResponse where
  status : Nat
  /-- Outcome of reading the body (`response.text()`): the text, or a rejection -/
  text : Except JsError String

/-- The getter `response.ok`: status in the range 200 to 299. -/
def UpstreamResponse.ok (r : UpstreamResponse) : Bool :=
  decide (200 ≤ r.status) && decide (r.status ≤ 299)

/-- The method `response.json()`: reads the body and parses it. -/
def UpstreamResponse.json (P : Platform) (r : UpstreamResponse) : Except JsError JsVal :=
  match r.text with
  | .error e => .error e
  | .ok t => P.jsonParse t

/-- Outcome of the awaited `fetch`: a rejection or a response. -/
inductive Upstream where
  | rejected (e : JsError)
  | responded (r : UpstreamResponse)

/-- The HTTP whitespace `fetch` strips from both ends of a header value: tab, line
feed, carriage return and space. -/
def isHttpWhitespace (c : Char) : Bool :=
  c.toNat == 0x09 || c.toNat == 0x0A || c.toNat == 0x0D || c.toNat == 0x20

/-- A header value with the HTTP whitespace at both ends stripped. -/
def normalizeHeaderValue (v : String) : String :=
  ⟨((v.data.dropWhile isHttpWhitespace).reverse.dropWhile isHttpWhitespace).reverse⟩

/-- Whether `fetch` accepts `v` as the value of a header: a byte string (every
character at most 255) that, once normalised, holds no NUL, line feed or carriage
return. -/
def isHeaderValue (v : String) : Bool :=
  (v.data.all fun c => decide (c.toNat ≤ 255)) &&
  ((normalizeHeaderValue v).data.all fun c =>
    c.toNat != 0x00 && c.toNat != 0x0A && c.toNat != 0x0D)

/-- What `await fetch(...)` yields for the request `o` when the network would
settle it as `net`: `fetch` builds the request first and rejects with a
`TypeError` when a header does not hold a valid value, in which case nothing is
sent; otherwise the outcome is that of the network. -/
def awaitFetch (P : Platform) (o : Outbound) (net : Upstream) : Upstream :=
  match o.headers.find? fun h => !isHeaderValue h.2 with
  | some h => .rejected (P.headerError h.1 h.2)
  | none => net

/-- Where the synchronous part of a handler stops: a response sent, or the
upstream call issued. -/
inductive Step where
  | respond (r : Response)
  | fetch (o : Outbound)

/-- A completed handler invocation: the response sent and the upstream calls made. -/
structure Run where
  response : Response
  calls : List Outbound

/-- The three `res.setHeader` calls that open both handlers. -/
def setCors (r : Response) : Response :=
  ((r.setHeader "Access-Control-Allow-Origin" "*").setHeader
    "Access-Control-Allow-Methods" "POST, OPTIONS").setHeader
    "Access-Control-Allow-Headers" "Content-Type"

/-- The object literals of shape `{ success: false, error: e }`. -/
def failure (e : JsVal) : JsVal :=
  .obj [("success", .bool false), ("error", e)]

/-- The object literals of shape `{ success: true, message: m }`. -/
def success (m : String) : JsVal :=
  .obj [("success", .bool true), ("message", .str m)]

/-! ## `api/subscribe.js` -/

namespace Subscribe

/-- The `catch (error)` block of the handler (lines 98-104). -/
def catchBlock (res : Response) (error : JsError) : Response :=
  (res.status 500).json (failure (.str ("Server error: " ++ error.message)))

/-- The argument of the `fetch` call (lines 48-60). -/
def outbound (brevoApiKey : String) (email : JsVal) : Outbound :=
  { url := "https://api.brevo.com/v3/contacts"
    method := "POST"
    headers := [("accept", "application/json"), ("api-key", brevoApiKey),
      ("content-type", "application/json")]
    body := .obj [("email", email), ("listIds", .arr [.num 8]), ("updateEnabled", .bool true)] }

/-- The `try` block up to the `await fetch(...)` (lines 24-48): destructuring of
the body, email validation, credential check. -/
def beforeFetch (P : Platform) (res : Response) (req : Request) (env : Env) :
    Except JsError Step :=
  match destructure P req.body "email" with
  | .error e => .error e
  | .ok email =>
    -- `!email || !email.includes('@')`
    match (if !email.truthy then Except.ok true
           else (callIncludes P "email.includes" email "@").map fun b => !b) with
    | .error e => .error e
    | .ok true => .ok (.respond ((res.status 400).json (failure (.str "Invalid email address"))))
    | .ok false =>
      match env.BREVO_API_KEY with
      | none => .ok (.respond ((res.status 500).json (failure (.str "Server configuration error"))))
      | some brevoApiKey =>
        if !envTruthy (some brevoApiKey) then
          .ok (.respond ((res.status 500).json (failure (.str "Server configuration error"))))
        else .ok (.fetch (outbound brevoApiKey email))

/-- The `try` block from the resolution of the `fetch` on (lines 48-97). -/
def afterFetch (P : Platform) (res : Response) (up : Upstream) : Except JsError Response :=
  match up with
  | .rejected e => .error e
  | .responded response =>
    match response.text with
    | .error e => .error e
    | .ok responseText =>
      -- `let data = {}; if (responseText) { try { data = JSON.parse(...) } catch ... }`
      match (if responseText != "" then P.jsonParse responseText else .ok (.obj [])) with
      | .error _ =>
        .ok ((res.status 500).json (failure (.str "Invalid response from email service")))
      | .ok data =>
        if response.ok || response.status == 201 then
          .ok ((res.status 200).json (success "Successfully subscribed!"))
        else
          -- `response.status === 400 && data.message?.includes('already exists')`
          match (if response.status == 400 then
                   (getProp P data "message").bind fun m =>
                     optIncludes P "data.message?.includes" m "already exists"
                 else Except.ok false) with
          | .error e => .error e
          | .ok true => .ok ((res.status 200).json (success "You are already subscribed!"))
          | .ok false =>
            match getProp P data "message" with
            | .error e => .error e
            | .ok m =>
              .ok ((res.status (if response.status != 0 then response.status else 500)).json
                (failure (m.orElse (.str "Subscription failed"))))

/-- The exported `handler(req, res)` of `api/subscribe.js`, run against the
outcome `up` of its upstream call. -/
def handler (P : Platform) (req : Request) (env : Env) (up : Upstream) : Run :=
  let res := setCors Response.fresh
  if req.method = "OPTIONS" then ⟨(res.status 200).finish, []⟩
  else if req.method ≠ "POST" then
    ⟨(res.status 405).json (failure (.str "Method not allowed")), []⟩
  else
    match beforeFetch P res req env with
    | .error e => ⟨catchBlock res e, []⟩
    | .ok (.respond r) => ⟨r, []⟩
    | .ok (.fetch o) =>
      match afterFetch P res up with
      | .error e => ⟨catchBlock res e, [o]⟩
      | .ok r => ⟨r, [o]⟩

/-- The handler against the network: the outcome of its awaited `fetch` is the
one `fetch` yields for the request the handler built, given what the network
would do, `net`. The calls recorded are the invocations of `fetch`. -/
def serve (P : Platform) (req : Request) (env : Env) (net : Upstream) : Run :=
  match beforeFetch P (setCors Response.fresh) req env with
  | .ok (.fetch o) => handler P req env (awaitFetch P o net)
  | _ => handler P req env net

end Subscribe

/-! ## `api/contact.js` -/

namespace Contact

/-- The `catch (error)` block of the handler (lines 75-81). -/
def catchBlock (res : Response) (_error : JsError) : Response :=
  (res.status 500).json (failure (.str "Server error"))

/-- The argument of the `fetch` call (lines 46-59). -/
def outbound (web3formsKey : String) (name email message : JsVal) : Outbound :=
  { url := "https://api.web3forms.com/submit"
    method := "POST"
    headers := [("Content-Type", "application/json"), ("Accept", "application/json")]
    body := .obj [("access_key", .str web3formsKey),
      ("subject", .str "New Contact Form Submission from Football News"),
      ("name", name), ("email", email), ("message", message)] }

/-- The `try` block up to the `await fetch(...)` (lines 24-46): destructuring of
the body, presence check of the three fields, credential check. -/
def beforeFetch (P : Platform) (res : Response) (req : Request) (env : Env) :
    Except JsError Step :=
  -- `const { name, email, message } = req.body`
  match destructure P req.body "name" with
  | .error e => .error e
  | .ok name =>
    let email := req.body.field "email"
    let message := req.body.field "message"
    if !name.truthy || !email.truthy || !message.truthy then
      .ok (.respond ((res.status 400).json
        (failure (.str "Name, email, and message are required"))))
    else
      match env.WEB3FORMS_ACCESS_KEY with
      | none => .ok (.respond ((res.status 500).json (failure (.str "Server configuration error"))))
      | some web3formsKey =>
        if !envTruthy (some web3formsKey) then
          .ok (.respond ((res.status 500).json (failure (.str "Server configuration error"))))
        else .ok (.fetch (outbound web3formsKey name email message))

/-- The `try` block from the resolution of the `fetch` on (lines 46-74). -/
def afterFetch (P : Platform) (res : Response) (up : Upstream) : Except JsError Response :=
  match up with
  | .rejected e => .error e
  | .responded response =>
    match response.json P with
    | .error e => .error e
    | .ok data =>
      match getProp P data "success" with
      | .error e => .error e
      | .ok flag =>
        if flag.truthy then
          .ok ((res.status 200).json (success "Message sent successfully!"))
        else
          .ok ((res.status 400).json
            (failure ((data.field "message").orElse (.str "Failed to send message"))))

/-- The exported `handler(req, res)` of `api/contact.js`, run against the
outcome `up` of its upstream call. -/
def handler (P : Platform) (req : Request) (env : Env) (up : Upstream) : Run :=
  let res := setCors Response.fresh
  if req.method = "OPTIONS" then ⟨(res.status 200).finish, []⟩
  else if req.method ≠ "POST" then
    ⟨(res.status 405).json (failure (.str "Method not allowed")), []⟩
  else
    match beforeFetch P res req env with
    | .error e => ⟨catchBlock res e, []⟩
    | .ok (.respond r) => ⟨r, []⟩
    | .ok (.fetch o) =>
      match afterFetch P res up with
      | .error e => ⟨catchBlock res e, [o]⟩
      | .ok r => ⟨r, [o]⟩

/-- The handler against the network: the outcome of its awaited `fetch` is the
one `fetch` yields for the request the handler built, given what the network
would do, `net`. The calls recorded are the invocations of `fetch`. -/
def serve (P : Platform) (req : Request) (env : Env) (net : Upstream) : Run :=
  match beforeFetch P (setCors Response.fresh) req env with
  | .ok (.fetch o) => handler P req env (awaitFetch P o net)
  | _ => handler P req env net

end Contact

/-! ## `js/main.js`: validation -/

namespace Client

/-- The characters of the class `\s`, which are also those `trim` strips: the
white space and line terminator code points of ECMAScript. -/
def isWhiteSpace (c : Char) : Bool :=
  let n := c.toNat
  n == 0x09 || n == 0x0A || n == 0x0B || n == 0x0C || n == 0x0D || n == 0x20 || n == 0xA0 ||
  n == 0x1680 || (decide (0x2000 ≤ n) && decide (n ≤ 0x200A)) || n == 0x2028 ||
  n == 0x2029 || n == 0x202F || n == 0x205F || n == 0x3000 || n == 0xFEFF

/-- The method `String.prototype.trim`. -/
def trim (s : String) : String :=
  ⟨((s.data.dropWhile isWhiteSpace).reverse.dropWhile isWhiteSpace).reverse⟩

/-- Regular expressions over characters, as far as `emailRegex` needs them. -/
inductive Regex where
  | never
  | empty
  | cls (p : Char → Bool)
  | seq (a b : Regex)
  | alt (a b : Regex)
  | star (a : Regex)

namespace Regex

/-- Whether the expression matches the empty string. -/
def nullable : Regex → Bool
  | never => false
  | empty => true
  | cls _ => false
  | seq a b => a.nullable && b.nullable
  | alt a b => a.nullable || b.nullable
  | star _ => true

/-- The expression that matches the rest of a match that starts with `c`. -/
def deriv (c : Char) : Regex → Regex
  | never => never
  | empty => never
  | cls p => if p c then empty else never
  | seq a b => if a.nullable then alt (seq (a.deriv c) b) (b.deriv c) else seq (a.deriv c) b
  | alt a b => alt (a.deriv c) (b.deriv c)
  | star a => seq (a.deriv c) (star a)

/-- The quantifier `a+`. -/
def plus (a : Regex) : Regex := seq a (star a)

/-- Whether the expression matches the whole character list: the method `test`
of an expression anchored with `^` and `$`. -/
def test (r : Regex) : List Char → Bool
  | [] => r.nullable
  | c :: cs => (r.deriv c).test cs

end Regex

/-- The class `[^\s@]`. -/
def notSpaceOrAt : Regex := .cls fun c => !isWhiteSpace c && c != '@'

/-- The constant `emailRegex`, the pattern `^[^\s@]+@[^\s@]+\.[^\s@]+$`. -/
def emailRegex : Regex :=
  .seq notSpaceOrAt.plus (.seq (.cls fun c => c == '@')
    (.seq notSpaceOrAt.plus (.seq (.cls fun c => c == '.') notSpaceOrAt.plus)))

/-- The function `validateEmail(email)`. -/
def validateEmail (email : String) : Bool :=
  emailRegex.test email.data

/-! ## `js/main.js`: the page -/

/-- An `input` or `textarea` of a form. -/
structure Input where
  value : String
  /-- The value `form.reset()` restores -/
  defaultValue : String
  /-- Whether `classList` contains `error` -/
  errorClass : Bool
  /-- The property `style.borderColor` -/
  borderColor : String
  /-- Identity of `parentElement` -/
  parent : Nat

/-- An element of class `error-message`: the element it lies in and its text.
The inline style `showError` gives it is the same for all. -/
structure ErrorMessage where
  parent : Nat
  textContent : String

/-- The submit button of a form. -/
structure Button where
  disabled : Bool
  textContent : String

/-- The element that displays the result of a submission. The value assigned to
`textContent` is kept as assigned; the DOM converts it to a string. -/
structure ResultElement where
  textContent : JsVal
  className : String
  display : String

/-- A call `fetch(url, { method: 'POST', headers, body: JSON.stringify(body) })`. -/
structure FetchCall where
  url : String
  body : JsVal

/-- What a submit listener does to the button and the network, in order. -/
inductive Effect where
  | setDisabled (b : Bool)
  | setLabel (text : String)
  | fetch (call : FetchCall)

/-- The part of the document the listeners of both forms act on. The elements of
class `error-message` are listed in document order; the parents of the inputs
are taken not to contain one another. -/
structure Dom where
  errorMessages : List ErrorMessage
  submitButton : Button
  result : ResultElement
  /-- Delays of the pending `setTimeout` callbacks that hide the result -/
  hideTimers : List Nat
  /-- Number of `scrollIntoView` calls on the result element -/
  scrolls : Nat
  /-- Writes to the button and network calls so far -/
  effects : List Effect

/-- Removes the first element of class `error-message` inside `parent`, if any:
`parent.querySelector('.error-message')` followed by `remove()`. -/
def removeFirstError (parent : Nat) : List ErrorMessage → List ErrorMessage
  | [] => []
  | m :: ms => if m.parent = parent then ms else m :: removeFirstError parent ms

/-- The function `showError(input, message)`. -/
def showError (d : Dom) (input : Input) (message : String) : Dom × Input :=
  ({ d with errorMessages := removeFirstError input.parent d.errorMessages ++
      [⟨input.parent, message⟩] },
   { input with errorClass := true, borderColor := "#D32F2F" })

/-- The function `clearError(input)`. -/
def clearError (d : Dom) (input : Input) : Dom × Input :=
  ({ d with errorMessages := removeFirstError input.parent d.errorMessages },
   { input with errorClass := false, borderColor := "" })

/-- The functions `showEmailResult(element, message, type)` and
`showResult(element, message, type)`, which have the same body. -/
def showResult (d : Dom) (message : JsVal) (type : String) : Dom :=
  { d with
    result := ⟨message, "form-result " ++ type, "block"⟩
    scrolls := d.scrolls + 1
    hideTimers := d.hideTimers ++ [5000] }

/-- Outcome of the awaited request of a submit listener. -/
inductive FetchOutcome where
  /-- The `fetch` promise rejects -/
  | rejected
  /-- The response arrives and `response.json()` rejects -/
  | invalidJson
  /-- The response arrives and `response.json()` resolves to `data` -/
  | json (data : JsVal)

/-- The assignments `submitButton.disabled = b` and `submitButton.textContent = t`. -/
def setButton (d : Dom) (b : Bool) (t : String) : Dom :=
  { d with
    submitButton := ⟨b, t⟩
    effects := d.effects ++ [.setDisabled b, .setLabel t] }

/-! ## `js/main.js`: the submit listener of the email signup form -/

/-- The email signup form: the input `#email` and the document around it. -/
structure EmailForm where
  dom : Dom
  emailInput : Input

namespace EmailForm

/-- The method `emailForm.reset()`: the input takes its default value. -/
def reset (s : EmailForm) : EmailForm :=
  { s with emailInput := { s.emailInput with value := s.emailInput.defaultValue } }

/-- The submit listener up to its `await fetch(...)` (lines 59-83). The second
component is absent when the listener returned, and otherwise holds
`originalText`, the label the listener restores when it resumes. -/
def submitStart (s : EmailForm) : EmailForm × Option String :=
  let email := trim s.emailInput.value
  if !validateEmail email then
    let shown := showError s.dom s.emailInput "Please enter a valid email address"
    (⟨shown.1, shown.2⟩, none)
  else
    let cleared := clearError s.dom s.emailInput
    let originalText := cleared.1.submitButton.textContent
    let d := setButton cleared.1 true "Subscribing..."
    let d := { d with effects := d.effects ++
      [.fetch ⟨"/api/subscribe", .obj [("email", .str email)]⟩] }
    (⟨d, cleared.2⟩, some originalText)

/-- The `try` block after the `fetch` resolved (lines 91-98); absent when it
throws: a rejected `fetch`, a rejected `response.json()`, or the read
`data.success` on `null`. -/
def tryBlock (s : EmailForm) (out : FetchOutcome) : Option EmailForm :=
  match out with
  | .rejected => none
  | .invalidJson => none
  | .json data =>
    if data.isNullish then none
    else if (data.field "success").truthy then
      some (reset { s with dom := (showResult s.dom
        ((data.field "message").orElse
          (.str "Success! You\x27ve been added to our launch list.")) "success") })
    else
      some { s with dom := (showResult s.dom
        ((data.field "error").orElse (.str "Oops! Something went wrong. Please try again."))
        "error") }

/-- The listener from the resolution of its request on (lines 83-105): the `try`
block, the `catch` block when it threw, then the `finally` block. -/
def submitResume (s : EmailForm) (originalText : String) (out : FetchOutcome) : EmailForm :=
  let afterTry :=
    match tryBlock s out with
    | some s₁ => s₁
    | none => { s with dom := (showResult s.dom
        (.str "Network error. Please check your connection and try again.") "error") }
  { afterTry with dom := setButton afterTry.dom false originalText }

/-- The submit listener of the email signup form, run against the outcome `out`
of its request. -/
def submit (s : EmailForm) (out : FetchOutcome) : EmailForm :=
  match submitStart s with
  | (s₁, none) => s₁
  | (s₁, some originalText) => submitResume s₁ originalText out

end EmailForm

/-! ## `js/main.js`: the submit listener of the contact form -/

/-- The contact form: the inputs `#name`, `#contact-email`, `#message` and the
document around them. -/
structure ContactForm where
  dom : Dom
  nameInput : Input
  emailInput : Input
  messageInput : Input

namespace ContactForm

/-- The method `contactForm.reset()`: the inputs take their default values. -/
def reset (s : ContactForm) : ContactForm :=
  { s with
    nameInput := { s.nameInput with value := s.nameInput.defaultValue }
    emailInput := { s.emailInput with value := s.emailInput.defaultValue }
    messageInput := { s.messageInput with value := s.messageInput.defaultValue } }

/-- The validation of the three inputs (lines 161-182): the form with its error
markers updated, and `isValid`. -/
def validate (s : ContactForm) : ContactForm × Bool :=
  let isValid := true
  let step₁ :=
    if trim s.nameInput.value = "" then showError s.dom s.nameInput "Name is required"
    else clearError s.dom s.nameInput
  let isValid := if trim s.nameInput.value = "" then false else isValid
  let step₂ :=
    if !validateEmail (trim s.emailInput.value) then
      showError step₁.1 s.emailInput "Please enter a valid email address"
    else clearError step₁.1 s.emailInput
  let isValid := if !validateEmail (trim s.emailInput.value) then false else isValid
  let step₃ :=
    if trim s.messageInput.value = "" then showError step₂.1 s.messageInput "Message is required"
    else clearError step₂.1 s.messageInput
  let isValid := if trim s.messageInput.value = "" then false else isValid
  (⟨step₃.1, step₁.2, step₂.2, step₃.2⟩, isValid)

/-- The submit listener up to its `await fetch(...)` (lines 153-194). The second
component is absent when the listener returned, and otherwise holds
`originalText`. -/
def submitStart (s : ContactForm) : ContactForm × Option String :=
  let checked := validate s
  if !checked.2 then (checked.1, none)
  else
    let s₁ := checked.1
    let originalText := s₁.dom.submitButton.textContent
    let d := setButton s₁.dom true "Sending..."
    let d := { d with effects := d.effects ++
      [.fetch ⟨"/api/contact", .obj [("name", .str (trim s₁.nameInput.value)),
        ("email", .str (trim s₁.emailInput.value)),
        ("message", .str (trim s₁.messageInput.value))]⟩] }
    ({ s₁ with dom := d }, some originalText)

/-- The `try` block after the `fetch` resolved (lines 206-213); absent when it
throws. -/
def tryBlock (s : ContactForm) (out : FetchOutcome) : Option ContactForm :=
  match out with
  | .rejected => none
  | .invalidJson => none
  | .json data =>
    if data.isNullish then none
    else if (data.field "success").truthy then
      some (reset { s with dom := (showResult s.dom
        (.str "Thank you! Your message has been sent successfully.") "success") })
    else
      some { s with dom := (showResult s.dom
        ((data.field "error").orElse (.str "Oops! Something went wrong. Please try again."))
        "error") }

/-- The listener from the resolution of its request on (lines 194-220): the
`try` block, the `catch` block when it threw, then the `finally` block. -/
def submitResume (s : ContactForm) (originalText : String) (out : FetchOutcome) : ContactForm :=
  let afterTry :=
    match tryBlock s out with
    | some s₁ => s₁
    | none => { s with dom := (showResult s.dom
        (.str "Network error. Please check your connection and try again.") "error") }
  { afterTry with dom := setButton afterTry.dom false originalText }

/-- The submit listener of the contact form, run against the outcome `out` of
its request. -/
def submit (s : ContactForm) (out : FetchOutcome) : ContactForm :=
  match submitStart s with
  | (s₁, none) => s₁
  | (s₁, some originalText) => submitResume s₁ originalText out

end ContactForm

end Client

open Client

/-! ## Statements of the specification -/

/-- The headers every response carries. -/
def corsHeaders : List (String × String) :=
  [("Access-Control-Allow-Origin", "*"), ("Access-Control-Allow-Methods", "POST, OPTIONS"),
    ("Access-Control-Allow-Headers", "Content-Type")]

/-- The expression `a ?? b`. -/
def JsVal.coalesce (a b : JsVal) : JsVal :=
  if a.isNullish then b else a

/-- The response mapping of the subscribe endpoint in the words of the
specification (claim C1): ok status first, then 400 with a message that contains
"already exists", otherwise the upstream status (500 when zero) with
`parsed.message ?? "Subscription failed"`. -/
def Subscribe.specResponse (s : Nat) (parsed : JsVal) : Response :=
  if 200 ≤ s ∧ s ≤ 299 then
    ⟨200, corsHeaders, some (.obj [("success", .bool true),
      ("message", .str "Successfully subscribed!")])⟩
  else if s = 400 ∧ (match parsed.field "message" with
      | .str m => strIncludes m "already exists"
      | _ => false) = true then
    ⟨200, corsHeaders, some (.obj [("success", .bool true),
      ("message", .str "You are already subscribed!")])⟩
  else
    ⟨if s = 0 then 500 else s, corsHeaders, some (.obj [("success", .bool false),
      ("error", (parsed.field "message").coalesce (.str "Subscription failed"))])⟩

/-- The response mapping of the contact endpoint in the words of the
specification (claim C2): 200 when `data.success` is strictly `true`, in every
other case 400 with `data.message ?? "Failed to send message"`. -/
def Contact.specResponse (data : JsVal) : Response :=
  match data.field "success" with
  | .bool true =>
    ⟨200, corsHeaders, some (.obj [("success", .bool true),
      ("message", .str "Message sent successfully!")])⟩
  | _ =>
    ⟨400, corsHeaders, some (.obj [("success", .bool false),
      ("error", (data.field "message").coalesce (.str "Failed to send message"))])⟩

/-- The two shapes of a JSON body: `{success:true, message}` with a string, and
`{success:false, error}` with a value that is not `undefined`. -/
def ProxyShape (b : JsVal) : Prop :=
  (∃ m : String, b = .obj [("success", .bool true), ("message", .str m)]) ∨
  (∃ e : JsVal, e.isUndefined = false ∧ b = .obj [("success", .bool false), ("error", e)])

/-- A response that carries no body or a body of one of the two shapes. -/
def Shaped (r : Response) : Prop :=
  ∀ b, r.body = some b → ProxyShape b

/-! ## Worked inputs -/

/-- How the engine names a nullish value in the text of a `TypeError`. -/
def nullishName : JsVal → String
  | .null => "null"
  | _ => "undefined"

/-- A platform for the worked examples: `JSON.parse` tabulated on the texts the
examples use (its value on each is the one the built-in returns), and the texts
Node.js gives its `TypeError`s, the one of `fetch` included. -/
def samplePlatform : Platform :=
  { jsonParse := fun t =>
      if t = "null" then .ok .null
      else if t = "\x7b\"message\":\"\"\x7d" then .ok (.obj [("message", .str "")])
      else if t = "\x7b\"message\":5\x7d" then .ok (.obj [("message", .num 5)])
      else if t = "\x7b\"success\":1\x7d" then .ok (.obj [("success", .num 1)])
      else if t = "\x7b\"success\":false,\"message\":\"\"\x7d" then
        .ok (.obj [("success", .bool false), ("message", .str "")])
      else if t = "\x7b\"success\":true\x7d" then .ok (.obj [("success", .bool true)])
      else if t = "\x7b\"message\":\"Contact already exists\"\x7d" then
        .ok (.obj [("message", .str "Contact already exists")])
      else if t = "\x7b\"message\":\"Invalid email address\"\x7d" then
        .ok (.obj [("message", .str "Invalid email address")])
      else .error ⟨"Unexpected token"⟩
    typeError := fun f =>
      match f with
      | .destructureNullish prop source =>
        ⟨"Cannot destructure property \x27" ++ prop ++ "\x27 of \x27req.body\x27 as it is " ++
          nullishName source ++ "."⟩
      | .readOfNullish prop target =>
        ⟨"Cannot read properties of " ++ nullishName target ++ " (reading \x27" ++ prop ++
          "\x27)"⟩
      | .notCallable name _ => ⟨name ++ " is not a function"⟩
    headerError := fun _ value =>
      ⟨"Headers.append: \"" ++ normalizeHeaderValue value ++ "\" is an invalid header value."⟩ }

/-- An environment with both credentials configured. -/
def sampleEnv : Env := ⟨some "brevo-key", some "web3forms-key"⟩

/-- An environment with no credential configured. -/
def emptyEnv : Env := ⟨none, none⟩

/-- An environment whose credentials hold a line feed, as a secret pasted with a
line break does. -/
def brokenKeyEnv : Env := ⟨some "sk-live\nSECRET", some "sk-live\nSECRET"⟩

/-- A request body with the three fields of the contact form filled in; it passes
the validation of both handlers. -/
def sampleContactBody : JsVal :=
  .obj [("name", .str "Ann"), ("email", .str "a@b.com"), ("message", .str "hi")]

/-- A document with nothing displayed and an enabled button labelled "Notify Me". -/
def sampleDom : Dom :=
  { errorMessages := []
    submitButton := ⟨false, "Notify Me"⟩
    result := ⟨.str "", "form-result", "none"⟩
    hideTimers := []
    scrolls := 0
    effects := [] }

/-- An input holding `value`, unmarked, inside the element `parent`. -/
def sampleInput (value : String) (parent : Nat) : Input :=
  ⟨value, "", false, "", parent⟩

/-! ## Basic facts -/

/-- A property read on a value that is not nullish does not throw. -/
theorem getProp_of_not_nullish (P : Platform) (v : JsVal) (k : String)
    (h : v.isNullish = false) : getProp P v k = .ok (v.field k) := by
  simp [getProp, h]

/-- Destructuring a value that is not nullish does not throw. -/
theorem destructure_of_not_nullish (P : Platform) (v : JsVal) (k : String)
    (h : v.isNullish = false) : destructure P v k = .ok (v.field k) := by
  simp [destructure, h]

/-- The optional call `recv?.includes` on `undefined` is falsy. -/
theorem optIncludes_undefined (P : Platform) (name needle : String) :
    optIncludes P name .undefined needle = .ok false := rfl

/-- The optional call `recv?.includes` on `null` is falsy. -/
theorem optIncludes_null (P : Platform) (name needle : String) :
    optIncludes P name .null needle = .ok false := rfl

/-- The optional call `recv?.includes` on a string is substring search. -/
theorem optIncludes_str (P : Platform) (name m needle : String) :
    optIncludes P name (.str m) needle = .ok (strIncludes m needle) := rfl

/-- A truthy value is not `undefined`. -/
theorem not_undefined_of_truthy (m : JsVal) (h : m.truthy = true) : m.isUndefined = false := by
  cases m <;> simp_all [JsVal.truthy, JsVal.isUndefined]

/-- A failure body whose error is not `undefined` is sent with both properties. -/
theorem json_failure (code : Nat) (m : JsVal) (h : m.isUndefined = false) :
    ((setCors Response.fresh).status code).json (failure m) =
      ⟨code, corsHeaders, some (.obj [("success", .bool false), ("error", m)])⟩ := by
  cases m <;> first | rfl | simp [JsVal.isUndefined] at h

/-- A success body is sent with both properties. -/
theorem json_success (code : Nat) (m : String) :
    ((setCors Response.fresh).status code).json (success m) =
      ⟨code, corsHeaders, some (.obj [("success", .bool true), ("message", .str m)])⟩ := rfl

/-- A string that includes a non-empty needle is truthy. -/
theorem truthy_of_includes (m needle : String) (hn : needle ≠ "")
    (h : strIncludes m needle = true) : (JsVal.str m).truthy = true := by
  have hm : m ≠ "" := by
    rintro rfl
    have : needle.data = [] := by simpa [strIncludes, includesChars] using h
    apply hn
    cases needle
    simp_all
  simp [JsVal.truthy, hm]

/-! ## Theorems: method dispatch -/

/-- C5. For every request whose method is not `POST`, whatever its body, the
environment and the upstream, both handlers make no upstream call and answer
200 with no body when the method is `OPTIONS`, and 405 with
`{success:false, error:"Method not allowed"}` for every other method. -/
theorem method_dispatch (P : Platform) (req : Request) (env : Env) (up : Upstream)
    (h : req.method ≠ "POST") :
    Subscribe.handler P req env up =
      (if req.method = "OPTIONS" then ⟨⟨200, corsHeaders, none⟩, []⟩
       else ⟨⟨405, corsHeaders, some (.obj [("success", .bool false),
          ("error", .str "Method not allowed")])⟩, []⟩) ∧
    Contact.handler P req env up =
      (if req.method = "OPTIONS" then ⟨⟨200, corsHeaders, none⟩, []⟩
       else ⟨⟨405, corsHeaders, some (.obj [("success", .bool false),
          ("error", .str "Method not allowed")])⟩, []⟩) := by
  constructor
  · unfold Subscribe.handler
    by_cases ho : req.method = "OPTIONS"
    · simp [ho]; rfl
    · simp [ho, h]; rfl
  · unfold Contact.handler
    by_cases ho : req.method = "OPTIONS"
    · simp [ho]; rfl
    · simp [ho, h]; rfl

/-- Witness of C5: a `DELETE` request to both handlers. -/
theorem method_dispatch_witness :
    Subscribe.handler samplePlatform ⟨"DELETE", .undefined⟩ sampleEnv (.rejected ⟨"down"⟩) =
      ⟨⟨405, corsHeaders, some (.obj [("success", .bool false),
          ("error", .str "Method not allowed")])⟩, []⟩ ∧
    Contact.handler samplePlatform ⟨"DELETE", .undefined⟩ sampleEnv (.rejected ⟨"down"⟩) =
      ⟨⟨405, corsHeaders, some (.obj [("success", .bool false),
          ("error", .str "Method not allowed")])⟩, []⟩ :=
  method_dispatch samplePlatform ⟨"DELETE", .undefined⟩ sampleEnv (.rejected ⟨"down"⟩)
    (by decide)

/-! ## Theorems: response mapping of the subscribe handler -/

/-- C1, as stated, fails. (a) Upstream status 500 with body `{"message":""}`: the
message is neither null nor undefined, so the stated mapping answers with the
error `""`; the handler answers with the fallback text, because it selects the
error with `||`. (b) Upstream status 500 with body `null`: the read
`data.message` throws and the handler answers from its `catch` block.
(c) Upstream status 400 with body `{"message":5}`: the call
`data.message?.includes(...)` throws and the handler answers 500 from its
`catch` block. -/
theorem subscribe_mapping_counterexample :
    ((Subscribe.handler samplePlatform ⟨"POST", .obj [("email", .str "a@b.com")]⟩ sampleEnv
        (.responded ⟨500, .ok "\x7b\"message\":\"\"\x7d"⟩)).response =
      ⟨500, corsHeaders, some (.obj [("success", .bool false),
        ("error", .str "Subscription failed")])⟩ ∧
     Subscribe.specResponse 500 (.obj [("message", .str "")]) =
      ⟨500, corsHeaders, some (.obj [("success", .bool false), ("error", .str "")])⟩) ∧
    ((Subscribe.handler samplePlatform ⟨"POST", .obj [("email", .str "a@b.com")]⟩ sampleEnv
        (.responded ⟨500, .ok "null"⟩)).response =
      ⟨500, corsHeaders, some (.obj [("success", .bool false),
        ("error", .str
          "Server error: Cannot read properties of null (reading \x27message\x27)")])⟩ ∧
     Subscribe.specResponse 500 .null =
      ⟨500, corsHeaders, some (.obj [("success", .bool false),
        ("error", .str "Subscription failed")])⟩) ∧
    ((Subscribe.handler samplePlatform ⟨"POST", .obj [("email", .str "a@b.com")]⟩ sampleEnv
        (.responded ⟨400, .ok "\x7b\"message\":5\x7d"⟩)).response =
      ⟨500, corsHeaders, some (.obj [("success", .bool false),
        ("error", .str "Server error: data.message?.includes is not a function")])⟩ ∧
     Subscribe.specResponse 400 (.obj [("message", .num 5)]) =
      ⟨400, corsHeaders, some (.obj [("success", .bool false), ("error", .num 5)])⟩) ∧
    (Subscribe.handler samplePlatform ⟨"POST", .obj [("email", .str "a@b.com")]⟩ sampleEnv
        (.responded ⟨500, .ok "\x7b\"message\":\"\"\x7d"⟩)).response ≠
      Subscribe.specResponse 500 (.obj [("message", .str "")]) := by
  have h1 : (Subscribe.handler samplePlatform ⟨"POST", .obj [("email", .str "a@b.com")]⟩
      sampleEnv (.responded ⟨500, .ok "\x7b\"message\":\"\"\x7d"⟩)).response =
      ⟨500, corsHeaders, some (.obj [("success", .bool false),
        ("error", .str "Subscription failed")])⟩ := rfl
  have h2 : Subscribe.specResponse 500 (.obj [("message", .str "")]) =
      ⟨500, corsHeaders, some (.obj [("success", .bool false), ("error", .str "")])⟩ := rfl
  refine ⟨⟨h1, h2⟩, ⟨rfl, rfl⟩, ⟨rfl, rfl⟩, ?_⟩
  rw [h1, h2]
  simp

/-- The synchronous part of the subscribe handler on a body whose `email` is a
string containing "@", with the credential configured: the upstream call. -/
theorem subscribe_beforeFetch_valid (P : Platform) (res : Response) (body : JsVal) (e key : String)
    (env : Env) (hbody : body.isNullish = false) (hemail : body.field "email" = .str e)
    (hat : strIncludes e "@" = true) (hkey : env.BREVO_API_KEY = some key) (hne : key ≠ "") :
    Subscribe.beforeFetch P res ⟨"POST", body⟩ env =
      .ok (.fetch (Subscribe.outbound key (.str e))) := by
  have he : (JsVal.str e).truthy = true := truthy_of_includes e "@" (by decide) hat
  simp [Subscribe.beforeFetch, destructure_of_not_nullish P body "email" hbody, hemail, he,
    callIncludes, Except.map, hat, hkey, envTruthy, hne]

/-- C1, amended. For every POST request whose `email` is a string containing "@",
with the credential configured, and every upstream response (status `s`, text
`t`) where `t` is empty (`data` is the empty object) or parses to `data`:
(1) if `s` is in 200-299 the response is 200 "Successfully subscribed!";
(2) else if `s = 400` and `data.message` is a string containing "already exists",
it is 200 "You are already subscribed!";
(3) else, when `data` is not null and `data.message` is absent, null or a string,
it is status `s` (500 when `s` is zero) with error `data.message` when that is
truthy (a non-empty string) and "Subscription failed" otherwise.
In each case exactly one upstream call was made. -/
theorem subscribe_response_mapping (P : Platform) (body : JsVal) (e key : String) (env : Env)
    (s : Nat) (t : String) (data : JsVal)
    (hbody : body.isNullish = false) (hemail : body.field "email" = .str e)
    (hat : strIncludes e "@" = true) (hkey : env.BREVO_API_KEY = some key) (hne : key ≠ "")
    (ht : (t = "" ∧ data = .obj []) ∨ (t ≠ "" ∧ P.jsonParse t = .ok data)) :
    (200 ≤ s ∧ s ≤ 299 →
      Subscribe.handler P ⟨"POST", body⟩ env (.responded ⟨s, .ok t⟩) =
        ⟨⟨200, corsHeaders, some (.obj [("success", .bool true),
          ("message", .str "Successfully subscribed!")])⟩,
         [Subscribe.outbound key (.str e)]⟩) ∧
    (∀ m : String, ¬ (200 ≤ s ∧ s ≤ 299) → s = 400 → data.isNullish = false →
      data.field "message" = .str m → strIncludes m "already exists" = true →
      Subscribe.handler P ⟨"POST", body⟩ env (.responded ⟨s, .ok t⟩) =
        ⟨⟨200, corsHeaders, some (.obj [("success", .bool true),
          ("message", .str "You are already subscribed!")])⟩,
         [Subscribe.outbound key (.str e)]⟩) ∧
    (¬ (200 ≤ s ∧ s ≤ 299) → data.isNullish = false →
      (data.field "message" = .undefined ∨ data.field "message" = .null ∨
        ∃ m, data.field "message" = .str m) →
      ¬ (s = 400 ∧ ∃ m, data.field "message" = .str m ∧ strIncludes m "already exists" = true) →
      Subscribe.handler P ⟨"POST", body⟩ env (.responded ⟨s, .ok t⟩) =
        ⟨⟨if s = 0 then 500 else s, corsHeaders, some (.obj [("success", .bool false),
          ("error", if (data.field "message").truthy then data.field "message"
                    else .str "Subscription failed")])⟩,
         [Subscribe.outbound key (.str e)]⟩) := by
  have hpre := subscribe_beforeFetch_valid P (setCors Response.fresh) body e key env hbody hemail
    hat hkey hne
  have hparse : (if (t != "") = true then P.jsonParse t else Except.ok (JsVal.obj [])) =
      .ok data := by
    rcases ht with ⟨h1, h2⟩ | ⟨h1, h2⟩
    · simp [h1, h2]
    · simp [h1, h2]
  refine ⟨?_, ?_, ?_⟩
  · rintro ⟨h1, h2⟩
    simp only [Subscribe.handler, hpre, Subscribe.afterFetch, hparse]
    simp [UpstreamResponse.ok, h1, h2]
    rfl
  · intro m hok h400 hd hm hinc
    subst h400
    simp only [Subscribe.handler, hpre, Subscribe.afterFetch, hparse]
    simp [UpstreamResponse.ok, getProp_of_not_nullish P data "message" hd, hm, optIncludes_str,
      hinc, Except.bind]
    rfl
  · intro hok hd hm hnot
    have hokb : (decide (200 ≤ s) && decide (s ≤ 299)) = false := by
      simpa using hok
    have h201 : s ≠ 201 := by
      rintro rfl
      exact hok ⟨by decide, by decide⟩
    simp only [Subscribe.handler, hpre, Subscribe.afterFetch, hparse]
    by_cases h400 : s = 400
    · subst h400
      rcases hm with hm | hm | ⟨m, hm⟩
      · simp [UpstreamResponse.ok, getProp_of_not_nullish P data "message" hd, hm,
          optIncludes_undefined, Except.bind, JsVal.orElse, JsVal.truthy]
        rfl
      · simp [UpstreamResponse.ok, getProp_of_not_nullish P data "message" hd, hm,
          optIncludes_null, Except.bind, JsVal.orElse, JsVal.truthy]
        rfl
      · have hinc : strIncludes m "already exists" = false := by
          by_contra hc
          exact hnot ⟨rfl, m, hm, by simpa using hc⟩
        simp [UpstreamResponse.ok, getProp_of_not_nullish P data "message" hd, hm,
          optIncludes_str, Except.bind, JsVal.orElse, hinc]
        split <;> rfl
    · simp only [UpstreamResponse.ok, hokb, h201, h400, getProp_of_not_nullish P data "message" hd,
        JsVal.orElse, beq_iff_eq, Bool.false_or, decide_False, if_false, Bool.false_eq_true,
        bne_iff_ne, ne_eq, ite_not]
      by_cases htr : (data.field "message").truthy = true
      · simp only [htr, if_true]
        rw [json_failure _ _ (not_undefined_of_truthy _ htr)]
        simp
      · simp only [htr, if_false, Bool.false_eq_true]
        rw [json_failure _ (.str "Subscription failed") rfl]
        simp

/-- Witness of C1: status 201 with an empty body, status 400 with a message that
contains "already exists", and status 500 with an empty message. -/
theorem subscribe_response_mapping_witness :
    Subscribe.handler samplePlatform ⟨"POST", .obj [("email", .str "a@b.com")]⟩ sampleEnv
        (.responded ⟨201, .ok ""⟩) =
      ⟨⟨200, corsHeaders, some (.obj [("success", .bool true),
          ("message", .str "Successfully subscribed!")])⟩,
        [Subscribe.outbound "brevo-key" (.str "a@b.com")]⟩ ∧
    Subscribe.handler samplePlatform ⟨"POST", .obj [("email", .str "a@b.com")]⟩ sampleEnv
        (.responded ⟨400, .ok "\x7b\"message\":\"Contact already exists\"\x7d"⟩) =
      ⟨⟨200, corsHeaders, some (.obj [("success", .bool true),
          ("message", .str "You are already subscribed!")])⟩,
        [Subscribe.outbound "brevo-key" (.str "a@b.com")]⟩ ∧
    Subscribe.handler samplePlatform ⟨"POST", .obj [("email", .str "a@b.com")]⟩ sampleEnv
        (.responded ⟨500, .ok "\x7b\"message\":\"\"\x7d"⟩) =
      ⟨⟨500, corsHeaders, some (.obj [("success", .bool false),
          ("error", .str "Subscription failed")])⟩,
        [Subscribe.outbound "brevo-key" (.str "a@b.com")]⟩ :=
  ⟨(subscribe_response_mapping samplePlatform (.obj [("email", .str "a@b.com")]) "a@b.com"
      "brevo-key" sampleEnv 201 "" (.obj []) rfl rfl (by decide) rfl (by decide)
      (Or.inl ⟨rfl, rfl⟩)).1 ⟨by decide, by decide⟩,
   (subscribe_response_mapping samplePlatform (.obj [("email", .str "a@b.com")]) "a@b.com"
      "brevo-key" sampleEnv 400 "\x7b\"message\":\"Contact already exists\"\x7d"
      (.obj [("message", .str "Contact already exists")]) rfl rfl (by decide) rfl (by decide)
      (Or.inr ⟨by decide, rfl⟩)).2.1 "Contact already exists" (by decide) rfl rfl rfl
      (by decide),
   (subscribe_response_mapping samplePlatform (.obj [("email", .str "a@b.com")]) "a@b.com"
      "brevo-key" sampleEnv 500 "\x7b\"message\":\"\"\x7d"
      (.obj [("message", .str "")]) rfl rfl (by decide) rfl (by decide)
      (Or.inr ⟨by decide, rfl⟩)).2.2 (by decide) rfl (Or.inr (Or.inr ⟨"", rfl⟩))
      (fun h => absurd h.1 (by decide))⟩

/-! ## Theorems: response mapping of the contact handler -/

/-- C2, as stated, fails. (a) Upstream body `{"success":1}`: `data.success` is
not the boolean `true`, so the stated mapping answers 400; the handler tests
truthiness and answers 200. (b) Upstream body `{"success":false,"message":""}`:
the stated mapping answers with the error `""`, the handler with the fallback
text. (c) Upstream body `null`: the read `data.success` throws and the handler
answers 500 from its `catch` block. -/
theorem contact_mapping_counterexample :
    ((Contact.handler samplePlatform ⟨"POST", sampleContactBody⟩ sampleEnv
        (.responded ⟨200, .ok "\x7b\"success\":1\x7d"⟩)).response =
      ⟨200, corsHeaders, some (.obj [("success", .bool true),
        ("message", .str "Message sent successfully!")])⟩ ∧
     Contact.specResponse (.obj [("success", .num 1)]) =
      ⟨400, corsHeaders, some (.obj [("success", .bool false),
        ("error", .str "Failed to send message")])⟩) ∧
    ((Contact.handler samplePlatform ⟨"POST", sampleContactBody⟩ sampleEnv
        (.responded ⟨200, .ok "\x7b\"success\":false,\"message\":\"\"\x7d"⟩)).response =
      ⟨400, corsHeaders, some (.obj [("success", .bool false),
        ("error", .str "Failed to send message")])⟩ ∧
     Contact.specResponse (.obj [("success", .bool false), ("message", .str "")]) =
      ⟨400, corsHeaders, some (.obj [("success", .bool false), ("error", .str "")])⟩) ∧
    ((Contact.handler samplePlatform ⟨"POST", sampleContactBody⟩ sampleEnv
        (.responded ⟨200, .ok "null"⟩)).response =
      ⟨500, corsHeaders, some (.obj [("success", .bool false), ("error", .str "Server error")])⟩ ∧
     Contact.specResponse .null =
      ⟨400, corsHeaders, some (.obj [("success", .bool false),
        ("error", .str "Failed to send message")])⟩) ∧
    (Contact.handler samplePlatform ⟨"POST", sampleContactBody⟩ sampleEnv
        (.responded ⟨200, .ok "\x7b\"success\":1\x7d"⟩)).response ≠
      Contact.specResponse (.obj [("success", .num 1)]) := by
  have h1 : (Contact.handler samplePlatform ⟨"POST", sampleContactBody⟩ sampleEnv
        (.responded ⟨200, .ok "\x7b\"success\":1\x7d"⟩)).response =
      ⟨200, corsHeaders, some (.obj [("success", .bool true),
        ("message", .str "Message sent successfully!")])⟩ := rfl
  have h2 : Contact.specResponse (.obj [("success", .num 1)]) =
      ⟨400, corsHeaders, some (.obj [("success", .bool false),
        ("error", .str "Failed to send message")])⟩ := rfl
  refine ⟨⟨h1, h2⟩, ⟨rfl, rfl⟩, ⟨rfl, rfl⟩, ?_⟩
  rw [h1, h2]
  simp

/-- The synchronous part of the contact handler on a body with the three fields
truthy, with the credential configured: the upstream call. -/
theorem contact_beforeFetch_valid (P : Platform) (res : Response) (body : JsVal) (key : String)
    (env : Env) (hbody : body.isNullish = false)
    (hname : (body.field "name").truthy = true) (hemail : (body.field "email").truthy = true)
    (hmessage : (body.field "message").truthy = true)
    (hkey : env.WEB3FORMS_ACCESS_KEY = some key) (hne : key ≠ "") :
    Contact.beforeFetch P res ⟨"POST", body⟩ env =
      .ok (.fetch (Contact.outbound key (body.field "name") (body.field "email")
        (body.field "message"))) := by
  simp [Contact.beforeFetch, destructure_of_not_nullish P body "name" hbody, hname, hemail,
    hmessage, hkey, envTruthy, hne]

/-- C2, amended. For every POST request whose `name`, `email` and `message` are
truthy, with the credential configured, and every upstream response whose body
parses to `data`: if `data` is null the response is 500 "Server error";
otherwise, if `data.success` is truthy the response is 200 "Message sent
successfully!", and if it is falsy the response is 400 with error
`data.message` when that is truthy and "Failed to send message" otherwise.
Exactly one upstream call was made. -/
theorem contact_response_mapping (P : Platform) (body : JsVal) (key : String) (env : Env)
    (s : Nat) (t : String) (data : JsVal)
    (hbody : body.isNullish = false)
    (hname : (body.field "name").truthy = true) (hemail : (body.field "email").truthy = true)
    (hmessage : (body.field "message").truthy = true)
    (hkey : env.WEB3FORMS_ACCESS_KEY = some key) (hne : key ≠ "")
    (ht : P.jsonParse t = .ok data) :
    Contact.handler P ⟨"POST", body⟩ env (.responded ⟨s, .ok t⟩) =
      ⟨if data.isNullish then
          ⟨500, corsHeaders, some (.obj [("success", .bool false),
            ("error", .str "Server error")])⟩
        else if (data.field "success").truthy then
          ⟨200, corsHeaders, some (.obj [("success", .bool true),
            ("message", .str "Message sent successfully!")])⟩
        else
          ⟨400, corsHeaders, some (.obj [("success", .bool false),
            ("error", if (data.field "message").truthy then data.field "message"
                      else .str "Failed to send message")])⟩,
       [Contact.outbound key (body.field "name") (body.field "email")
          (body.field "message")]⟩ := by
  have hpre := contact_beforeFetch_valid P (setCors Response.fresh) body key env hbody hname
    hemail hmessage hkey hne
  simp only [Contact.handler, hpre, Contact.afterFetch, UpstreamResponse.json, ht]
  by_cases hd : data.isNullish = true
  · simp [getProp, hd, Contact.catchBlock]
    exact json_failure 500 (.str "Server error") rfl
  · have hd2 : data.isNullish = false := by simpa using hd
    simp only [getProp_of_not_nullish P data "success" hd2, hd2]
    by_cases hs : (data.field "success").truthy = true
    · simp [hs]
      rfl
    · have hs2 : (data.field "success").truthy = false := by simpa using hs
      simp only [hs2, JsVal.orElse, Bool.false_eq_true, if_false]
      by_cases hm : (data.field "message").truthy = true
      · simp only [hm, if_true]
        rw [json_failure _ _ (not_undefined_of_truthy _ hm)]
        simp
      · have hm2 : (data.field "message").truthy = false := by simpa using hm
        simp only [hm2, Bool.false_eq_true, if_false]
        rw [json_failure _ (.str "Failed to send message") rfl]
        simp

/-- Witness of C2: the upstream answers `{"success":true}`. -/
theorem contact_response_mapping_witness :
    Contact.handler samplePlatform ⟨"POST", sampleContactBody⟩ sampleEnv
        (.responded ⟨200, .ok "\x7b\"success\":true\x7d"⟩) =
      ⟨⟨200, corsHeaders, some (.obj [("success", .bool true),
          ("message", .str "Message sent successfully!")])⟩,
       [Contact.outbound "web3forms-key" (.str "Ann") (.str "a@b.com") (.str "hi")]⟩ :=
  contact_response_mapping samplePlatform sampleContactBody "web3forms-key" sampleEnv 200
    "\x7b\"success\":true\x7d" (.obj [("success", .bool true)]) rfl rfl rfl rfl rfl
    (by decide) rfl

/-! ## Theorems: input validation -/

/-- C3, as stated, fails: a POST request with no body. The destructuring of
`req.body` throws, and the handler answers 500 "Server error" from its `catch`
block, not 400. -/
theorem contact_validation_counterexample :
    Contact.handler samplePlatform ⟨"POST", .undefined⟩ sampleEnv (.rejected ⟨"down"⟩) =
      ⟨⟨500, corsHeaders, some (.obj [("success", .bool false),
        ("error", .str "Server error")])⟩, []⟩ ∧
    (Contact.handler samplePlatform ⟨"POST", .undefined⟩ sampleEnv
        (.rejected ⟨"down"⟩)).response.statusCode ≠ 400 := by
  refine ⟨rfl, ?_⟩
  decide

/-- C3, amended. For every POST request that carries a body (`req.body` is
neither `undefined` nor `null`) in which `name`, `email` or `message` is missing,
empty or otherwise falsy, whatever the environment and the upstream, the
response is 400 with `{success:false, error:"Name, email, and message are
required"}` and no upstream call is made. -/
theorem contact_validation (P : Platform) (body : JsVal) (env : Env) (up : Upstream)
    (hbody : body.isNullish = false)
    (h : (body.field "name").truthy = false ∨ (body.field "email").truthy = false ∨
      (body.field "message").truthy = false) :
    Contact.handler P ⟨"POST", body⟩ env up =
      ⟨⟨400, corsHeaders, some (.obj [("success", .bool false),
        ("error", .str "Name, email, and message are required")])⟩, []⟩ := by
  have hc : (!(body.field "name").truthy || !(body.field "email").truthy ||
      !(body.field "message").truthy) = true := by
    rcases h with h | h | h <;> simp [h]
  simp only [Contact.handler, Contact.beforeFetch, destructure_of_not_nullish P body "name" hbody,
    hc]
  simp
  rfl

/-- Witness of C3: the body `{name:"", email:"a@b.com", message:"hi"}`. -/
theorem contact_validation_witness :
    Contact.handler samplePlatform
        ⟨"POST", .obj [("name", .str ""), ("email", .str "a@b.com"), ("message", .str "hi")]⟩
        sampleEnv (.rejected ⟨"down"⟩) =
      ⟨⟨400, corsHeaders, some (.obj [("success", .bool false),
        ("error", .str "Name, email, and message are required")])⟩, []⟩ :=
  contact_validation samplePlatform
    (.obj [("name", .str ""), ("email", .str "a@b.com"), ("message", .str "hi")])
    sampleEnv (.rejected ⟨"down"⟩) rfl (Or.inl rfl)

/-- C4, as stated, fails. (a) A POST request with no body: the destructuring
throws and the handler answers 500 from its `catch` block. (b) The body
`{email:5}`: the email is not a string, `email.includes` is not a function, and
the handler answers 500 from its `catch` block. (c) The body `{email:["@"]}`: the
email is not a string, yet `Array.prototype.includes` finds "@" and the request
is forwarded upstream. (d) The body `{email:"a@b"}` with the upstream answering
400 `{"message":"Invalid email address"}`: the email is a string containing "@"
and the client still receives 400 `{success:false, error:"Invalid email
address"}`, relayed from the upstream. -/
theorem subscribe_validation_counterexample :
    Subscribe.handler samplePlatform ⟨"POST", .undefined⟩ sampleEnv (.rejected ⟨"down"⟩) =
      ⟨⟨500, corsHeaders, some (.obj [("success", .bool false),
        ("error", .str
          ("Server error: Cannot destructure property \x27email\x27 of \x27req.body\x27 " ++
            "as it is undefined."))])⟩, []⟩ ∧
    Subscribe.handler samplePlatform ⟨"POST", .obj [("email", .num 5)]⟩ sampleEnv
        (.rejected ⟨"down"⟩) =
      ⟨⟨500, corsHeaders, some (.obj [("success", .bool false),
        ("error", .str "Server error: email.includes is not a function")])⟩, []⟩ ∧
    Subscribe.handler samplePlatform ⟨"POST", .obj [("email", .arr [.str "@"])]⟩ sampleEnv
        (.responded ⟨201, .ok ""⟩) =
      ⟨⟨200, corsHeaders, some (.obj [("success", .bool true),
        ("message", .str "Successfully subscribed!")])⟩,
       [Subscribe.outbound "brevo-key" (.arr [.str "@"])]⟩ ∧
    Subscribe.handler samplePlatform ⟨"POST", .obj [("email", .str "a@b")]⟩ sampleEnv
        (.responded ⟨400, .ok "\x7b\"message\":\"Invalid email address\"\x7d"⟩) =
      ⟨⟨400, corsHeaders, some (.obj [("success", .bool false),
        ("error", .str "Invalid email address")])⟩,
       [Subscribe.outbound "brevo-key" (.str "a@b")]⟩ ∧
    (Subscribe.handler samplePlatform ⟨"POST", .undefined⟩ sampleEnv
        (.rejected ⟨"down"⟩)).response.statusCode ≠ 400 := by
  refine ⟨rfl, rfl, rfl, rfl, ?_⟩
  decide

/-- The validation of the subscribe handler on a request that carries a body:
rejection of a falsy email and of a string without "@", and what follows the
acceptance of a string containing "@". -/
theorem subscribe_validation_core (P : Platform) (body : JsVal) (env : Env) (up : Upstream)
    (hbody : body.isNullish = false) :
    (((body.field "email").truthy = false ∨
        ∃ e, body.field "email" = .str e ∧ strIncludes e "@" = false) →
      Subscribe.handler P ⟨"POST", body⟩ env up =
        ⟨⟨400, corsHeaders, some (.obj [("success", .bool false),
          ("error", .str "Invalid email address")])⟩, []⟩) ∧
    (∀ e, body.field "email" = .str e → strIncludes e "@" = true →
      (∀ key, env.BREVO_API_KEY = some key → key ≠ "" →
        (Subscribe.handler P ⟨"POST", body⟩ env up).calls =
          [Subscribe.outbound key (.str e)]) ∧
      (envTruthy env.BREVO_API_KEY = false →
        Subscribe.handler P ⟨"POST", body⟩ env up =
          ⟨⟨500, corsHeaders, some (.obj [("success", .bool false),
            ("error", .str "Server configuration error")])⟩, []⟩)) := by
  refine ⟨?_, ?_⟩
  · intro h
    have hc : (if (!(body.field "email").truthy) = true then Except.ok true
        else (callIncludes P "email.includes" (body.field "email") "@").map fun b => !b) =
        .ok true := by
      rcases h with h | ⟨e, he, hinc⟩
      · simp [h]
      · by_cases ht : (JsVal.str e).truthy = true
        · simp [he, ht, callIncludes, Except.map, hinc]
        · simp [he, ht]
    simp only [Subscribe.handler, Subscribe.beforeFetch,
      destructure_of_not_nullish P body "email" hbody, hc]
    simp
    rfl
  · intro e he hinc
    refine ⟨?_, ?_⟩
    · intro key hkey hne
      have hpre := subscribe_beforeFetch_valid P (setCors Response.fresh) body e key env hbody he
        hinc hkey hne
      simp only [Subscribe.handler, hpre]
      simp
      split <;> rfl
    · intro hkey
      have het : (JsVal.str e).truthy = true := truthy_of_includes e "@" (by decide) hinc
      have hpre : Subscribe.beforeFetch P (setCors Response.fresh) ⟨"POST", body⟩ env =
          .ok (.respond (((setCors Response.fresh).status 500).json
            (failure (.str "Server configuration error")))) := by
        cases hk : env.BREVO_API_KEY with
        | none =>
          simp [Subscribe.beforeFetch, destructure_of_not_nullish P body "email" hbody, he, het,
            callIncludes, Except.map, hinc, hk]
        | some key =>
          rw [hk] at hkey
          simp [Subscribe.beforeFetch, destructure_of_not_nullish P body "email" hbody, he, het,
            callIncludes, Except.map, hinc, hk, hkey]
      simp only [Subscribe.handler, hpre]
      simp
      rfl

/-- C4, amended. For every POST request that carries a body (`req.body` is
neither `undefined` nor `null`), whatever the environment and the upstream:
if `email` is missing, empty or otherwise falsy, or is a string without "@", the
response is 400 with `{success:false, error:"Invalid email address"}` and no
upstream call is made; if `email` is a string containing "@" the validation
lets the request through: with the credential configured the upstream call is
made, without it the response is 500 "Server configuration error". -/
theorem subscribe_validation (P : Platform) (body : JsVal) (env : Env) (up : Upstream)
    (hbody : body.isNullish = false) :
    (((body.field "email").truthy = false ∨
        ∃ e, body.field "email" = .str e ∧ strIncludes e "@" = false) →
      Subscribe.handler P ⟨"POST", body⟩ env up =
        ⟨⟨400, corsHeaders, some (.obj [("success", .bool false),
          ("error", .str "Invalid email address")])⟩, []⟩) ∧
    (∀ e, body.field "email" = .str e → strIncludes e "@" = true →
      (∀ key, env.BREVO_API_KEY = some key → key ≠ "" →
        (Subscribe.handler P ⟨"POST", body⟩ env up).calls =
          [Subscribe.outbound key (.str e)]) ∧
      (envTruthy env.BREVO_API_KEY = false →
        Subscribe.handler P ⟨"POST", body⟩ env up =
          ⟨⟨500, corsHeaders, some (.obj [("success", .bool false),
            ("error", .str "Server configuration error")])⟩, []⟩)) :=
  subscribe_validation_core P body env up hbody

/-- Witness of C4: the body `{email:"not-an-email"}`. -/
theorem subscribe_validation_witness :
    Subscribe.handler samplePlatform ⟨"POST", .obj [("email", .str "not-an-email")]⟩ sampleEnv
        (.rejected ⟨"down"⟩) =
      ⟨⟨400, corsHeaders, some (.obj [("success", .bool false),
        ("error", .str "Invalid email address")])⟩, []⟩ :=
  (subscribe_validation samplePlatform (.obj [("email", .str "not-an-email")]) sampleEnv
    (.rejected ⟨"down"⟩) rfl).1 (Or.inr ⟨"not-an-email", rfl, by decide⟩)

/-! ## Theorems: missing credential -/

/-- C6, as stated, fails: with no credential in the environment, a POST request
with the body `{}` is answered 400 by the validation of each handler, which
runs before the credential is read. -/
theorem missing_credential_counterexample :
    Contact.handler samplePlatform ⟨"POST", .obj []⟩ emptyEnv (.rejected ⟨"down"⟩) =
      ⟨⟨400, corsHeaders, some (.obj [("success", .bool false),
        ("error", .str "Name, email, and message are required")])⟩, []⟩ ∧
    Subscribe.handler samplePlatform ⟨"POST", .obj []⟩ emptyEnv (.rejected ⟨"down"⟩) =
      ⟨⟨400, corsHeaders, some (.obj [("success", .bool false),
        ("error", .str "Invalid email address")])⟩, []⟩ ∧
    (Contact.handler samplePlatform ⟨"POST", .obj []⟩ emptyEnv
        (.rejected ⟨"down"⟩)).response.statusCode ≠ 500 ∧
    (Subscribe.handler samplePlatform ⟨"POST", .obj []⟩ emptyEnv
        (.rejected ⟨"down"⟩)).response.statusCode ≠ 500 := by
  refine ⟨rfl, rfl, ?_, ?_⟩ <;> decide

/-- C6, amended. For each handler, when its credential is absent from the
environment (or empty), every POST request that passes the validation of the
handler (contact: a body whose `name`, `email` and `message` are truthy;
subscribe: a body whose `email` is a string containing "@") is answered with
status 500 and `{success:false, error:"Server configuration error"}`, and no
upstream call is made. -/
theorem missing_credential (P : Platform) (body : JsVal) (env : Env) (up : Upstream)
    (hbody : body.isNullish = false) :
    (envTruthy env.WEB3FORMS_ACCESS_KEY = false →
      (body.field "name").truthy = true → (body.field "email").truthy = true →
      (body.field "message").truthy = true →
      Contact.handler P ⟨"POST", body⟩ env up =
        ⟨⟨500, corsHeaders, some (.obj [("success", .bool false),
          ("error", .str "Server configuration error")])⟩, []⟩) ∧
    (envTruthy env.BREVO_API_KEY = false →
      ∀ e, body.field "email" = .str e → strIncludes e "@" = true →
      Subscribe.handler P ⟨"POST", body⟩ env up =
        ⟨⟨500, corsHeaders, some (.obj [("success", .bool false),
          ("error", .str "Server configuration error")])⟩, []⟩) := by
  refine ⟨?_, ?_⟩
  · intro hkey hname hemail hmessage
    have hpre : Contact.beforeFetch P (setCors Response.fresh) ⟨"POST", body⟩ env =
        .ok (.respond (((setCors Response.fresh).status 500).json
          (failure (.str "Server configuration error")))) := by
      cases hk : env.WEB3FORMS_ACCESS_KEY with
      | none =>
        simp [Contact.beforeFetch, destructure_of_not_nullish P body "name" hbody, hname, hemail,
          hmessage, hk]
      | some key =>
        rw [hk] at hkey
        simp [Contact.beforeFetch, destructure_of_not_nullish P body "name" hbody, hname, hemail,
          hmessage, hk, hkey]
    simp only [Contact.handler, hpre]
    simp
    rfl
  · intro hkey e he hinc
    exact ((subscribe_validation_core P body env up hbody).2 e he hinc).2 hkey

/-- Witness of C6: well-formed bodies sent to both handlers with no credential
configured. -/
theorem missing_credential_witness :
    Contact.handler samplePlatform ⟨"POST", sampleContactBody⟩ emptyEnv (.rejected ⟨"down"⟩) =
      ⟨⟨500, corsHeaders, some (.obj [("success", .bool false),
        ("error", .str "Server configuration error")])⟩, []⟩ ∧
    Subscribe.handler samplePlatform ⟨"POST", .obj [("email", .str "a@b.com")]⟩ emptyEnv
        (.rejected ⟨"down"⟩) =
      ⟨⟨500, corsHeaders, some (.obj [("success", .bool false),
        ("error", .str "Server configuration error")])⟩, []⟩ :=
  ⟨(missing_credential samplePlatform sampleContactBody emptyEnv (.rejected ⟨"down"⟩) rfl).1
      rfl rfl rfl rfl,
   (missing_credential samplePlatform (.obj [("email", .str "a@b.com")]) emptyEnv
      (.rejected ⟨"down"⟩) rfl).2 rfl "a@b.com" rfl (by decide)⟩

/-! ## Theorems: the credential and the client response -/

/-- A truthy environment variable is set to a non-empty string. -/
theorem exists_key_of_envTruthy (k : Option String) (h : envTruthy k = true) :
    ∃ key, k = some key ∧ key ≠ "" := by
  cases k with
  | none => simp [envTruthy] at h
  | some key => exact ⟨key, rfl, by simpa [envTruthy] using h⟩

/-- With a configured credential `key`, the synchronous part of the subscribe
handler throws, responds, or issues the call built from `key`; which of the
three, and the error, response and email, do not depend on `key`. -/
theorem subscribe_beforeFetch_cases (P : Platform) (res : Response) (req : Request) :
    (∃ e, ∀ env key, env.BREVO_API_KEY = some key → key ≠ "" →
      Subscribe.beforeFetch P res req env = .error e) ∨
    (∃ r, ∀ env key, env.BREVO_API_KEY = some key → key ≠ "" →
      Subscribe.beforeFetch P res req env = .ok (.respond r)) ∨
    (∃ email, ∀ env key, env.BREVO_API_KEY = some key → key ≠ "" →
      Subscribe.beforeFetch P res req env = .ok (.fetch (Subscribe.outbound key email))) := by
  unfold Subscribe.beforeFetch
  cases hd : destructure P req.body "email" with
  | error e => exact Or.inl ⟨e, fun _ _ _ _ => rfl⟩
  | ok email =>
    dsimp only
    cases hv : (if (!email.truthy) = true then Except.ok true
        else (callIncludes P "email.includes" email "@").map fun b => !b) with
    | error e => exact Or.inl ⟨e, fun _ _ _ _ => rfl⟩
    | ok b =>
      cases b with
      | true => exact Or.inr (Or.inl ⟨_, fun _ _ _ _ => rfl⟩)
      | false =>
        refine Or.inr (Or.inr ⟨email, fun env key hk hne => ?_⟩)
        simp [hk, envTruthy, hne]

/-- With a configured credential `key`, the synchronous part of the contact
handler throws, responds, or issues the call built from `key`; which of the
three, and the error, response and fields, do not depend on `key`. -/
theorem contact_beforeFetch_cases (P : Platform) (res : Response) (req : Request) :
    (∃ e, ∀ env key, env.WEB3FORMS_ACCESS_KEY = some key → key ≠ "" →
      Contact.beforeFetch P res req env = .error e) ∨
    (∃ r, ∀ env key, env.WEB3FORMS_ACCESS_KEY = some key → key ≠ "" →
      Contact.beforeFetch P res req env = .ok (.respond r)) ∨
    (∃ name email message, ∀ env key, env.WEB3FORMS_ACCESS_KEY = some key → key ≠ "" →
      Contact.beforeFetch P res req env =
        .ok (.fetch (Contact.outbound key name email message))) := by
  unfold Contact.beforeFetch
  cases hd : destructure P req.body "name" with
  | error e => exact Or.inl ⟨e, fun _ _ _ _ => rfl⟩
  | ok name =>
    dsimp only
    by_cases hv : (!name.truthy || !(req.body.field "email").truthy ||
        !(req.body.field "message").truthy) = true
    · refine Or.inr (Or.inl ⟨(res.status 400).json
        (failure (.str "Name, email, and message are required")), fun env key hk hne => ?_⟩)
      simp only [hv, if_true]
    · refine Or.inr (Or.inr ⟨name, req.body.field "email", req.body.field "message",
        fun env key hk hne => ?_⟩)
      simp [hv, hk, envTruthy, hne]

/-- For a fixed outcome of the awaited `fetch`, the response of either handler
does not depend on which non-empty credential is configured, and the credential
sits in the call where the source puts it: the `access_key` property of the body
for contact, the `api-key` header for subscribe. -/
theorem response_of_fixed_outcome (P : Platform) (req : Request) (env₁ env₂ : Env)
    (up : Upstream) :
    (envTruthy env₁.WEB3FORMS_ACCESS_KEY = true → envTruthy env₂.WEB3FORMS_ACCESS_KEY = true →
      (Contact.handler P req env₁ up).response = (Contact.handler P req env₂ up).response ∧
      ∀ o ∈ (Contact.handler P req env₁ up).calls,
        (o.body.field "access_key").isUndefined = false ∧
        some (o.body.field "access_key") = env₁.WEB3FORMS_ACCESS_KEY.map JsVal.str) ∧
    (envTruthy env₁.BREVO_API_KEY = true → envTruthy env₂.BREVO_API_KEY = true →
      (Subscribe.handler P req env₁ up).response = (Subscribe.handler P req env₂ up).response ∧
      ∀ o ∈ (Subscribe.handler P req env₁ up).calls,
        o.headers.lookup "api-key" = env₁.BREVO_API_KEY) := by
  refine ⟨?_, ?_⟩
  · intro hw₁ hw₂
    obtain ⟨kw₁, hkw₁, hnw₁⟩ := exists_key_of_envTruthy _ hw₁
    obtain ⟨kw₂, hkw₂, hnw₂⟩ := exists_key_of_envTruthy _ hw₂
    unfold Contact.handler
    dsimp only
    rcases contact_beforeFetch_cases P (setCors Response.fresh) req with
      ⟨e, h⟩ | ⟨r, h⟩ | ⟨name, email, message, h⟩ <;>
    rw [h env₁ kw₁ hkw₁ hnw₁, h env₂ kw₂ hkw₂ hnw₂, hkw₁] <;>
    by_cases ho : req.method = "OPTIONS" <;> by_cases hp : req.method = "POST" <;>
    (simp only [ho, hp, if_true, if_false, ne_eq, not_true_eq_false, not_false_eq_true]
     try (cases Contact.afterFetch P (setCors Response.fresh) up <;>
       simp [Contact.outbound, JsVal.field, List.lookup, JsVal.isUndefined]))
  · intro hb₁ hb₂
    obtain ⟨kb₁, hkb₁, hnb₁⟩ := exists_key_of_envTruthy _ hb₁
    obtain ⟨kb₂, hkb₂, hnb₂⟩ := exists_key_of_envTruthy _ hb₂
    unfold Subscribe.handler
    dsimp only
    rcases subscribe_beforeFetch_cases P (setCors Response.fresh) req with
      ⟨e, h⟩ | ⟨r, h⟩ | ⟨email, h⟩ <;>
    rw [h env₁ kb₁ hkb₁ hnb₁, h env₂ kb₂ hkb₂ hnb₂, hkb₁] <;>
    by_cases ho : req.method = "OPTIONS" <;> by_cases hp : req.method = "POST" <;>
    (simp only [ho, hp, if_true, if_false, ne_eq, not_true_eq_false, not_false_eq_true]
     try (cases Subscribe.afterFetch P (setCors Response.fresh) up <;>
       simp [Subscribe.outbound, List.lookup]))

/-- The request of the contact handler holds the credential in its body, where
any string is accepted: its awaited `fetch` settles as the network does. -/
theorem awaitFetch_contact (P : Platform) (key : String) (name email message : JsVal)
    (net : Upstream) :
    awaitFetch P (Contact.outbound key name email message) net = net := by
  have h₁ : isHeaderValue "application/json" = true := by decide
  simp [awaitFetch, Contact.outbound, List.find?, h₁]

/-- The request of the subscribe handler holds the credential in a header: its
awaited `fetch` settles as the network does when the credential is a valid
header value, and rejects with the error of the platform for that value when it
is not. -/
theorem awaitFetch_subscribe (P : Platform) (key : String) (email : JsVal) (net : Upstream) :
    awaitFetch P (Subscribe.outbound key email) net =
      if isHeaderValue key then net else .rejected (P.headerError "api-key" key) := by
  have h₁ : isHeaderValue "application/json" = true := by decide
  by_cases hk : isHeaderValue key = true
  · simp [awaitFetch, Subscribe.outbound, List.find?, h₁, hk]
  · simp [awaitFetch, Subscribe.outbound, List.find?, h₁, hk]

/-- The subscribe handler relays the credential. For every POST request whose
`email` is a string containing "@" and every configured credential that is not a
valid header value, whatever the network would do, the response is 500 with the
error "Server error: " followed by the text of the `TypeError` that `fetch`
raised for the `api-key` header and the credential. -/
theorem subscribe_relays_header_error (P : Platform) (body : JsVal) (e key : String) (env : Env)
    (net : Upstream) (hbody : body.isNullish = false) (hemail : body.field "email" = .str e)
    (hat : strIncludes e "@" = true) (hkey : env.BREVO_API_KEY = some key) (hne : key ≠ "")
    (hbad : isHeaderValue key = false) :
    Subscribe.serve P ⟨"POST", body⟩ env net =
      ⟨⟨500, corsHeaders, some (.obj [("success", .bool false),
          ("error", .str ("Server error: " ++ (P.headerError "api-key" key).message))])⟩,
        [Subscribe.outbound key (.str e)]⟩ := by
  have hpre := subscribe_beforeFetch_valid P (setCors Response.fresh) body e key env hbody hemail
    hat hkey hne
  simp only [Subscribe.serve, hpre, awaitFetch_subscribe, hbad, Bool.false_eq_true, if_false,
    Subscribe.handler, Subscribe.afterFetch, Subscribe.catchBlock]
  simp
  exact json_failure 500 _ rfl

/-- The contact handler does not relay its credential: against the network its
response is the same under any two environments in which the credential is
configured, whatever the credentials hold. -/
theorem contact_serve_noninterference (P : Platform) (req : Request) (env₁ env₂ : Env)
    (net : Upstream) (hw₁ : envTruthy env₁.WEB3FORMS_ACCESS_KEY = true)
    (hw₂ : envTruthy env₂.WEB3FORMS_ACCESS_KEY = true) :
    (Contact.serve P req env₁ net).response = (Contact.serve P req env₂ net).response := by
  obtain ⟨kw₁, hkw₁, hnw₁⟩ := exists_key_of_envTruthy _ hw₁
  obtain ⟨kw₂, hkw₂, hnw₂⟩ := exists_key_of_envTruthy _ hw₂
  have hfix := (response_of_fixed_outcome P req env₁ env₂ net).1 hw₁ hw₂
  unfold Contact.serve
  rcases contact_beforeFetch_cases P (setCors Response.fresh) req with
    ⟨e, h⟩ | ⟨r, h⟩ | ⟨name, email, message, h⟩ <;>
  rw [h env₁ kw₁ hkw₁ hnw₁, h env₂ kw₂ hkw₂ hnw₂]
  · exact hfix.1
  · exact hfix.1
  · simp only [awaitFetch_contact]
    exact hfix.1

/-- C7, the code at the failing input. With `BREVO_API_KEY` set to
"sk-live", a line feed, "SECRET", and the POST body `{email:"a@b.com"}`, the
`fetch` of the subscribe handler rejects the `api-key` header, the `catch` block
relays the text of the error, and the client receives the credential in the
`error` of the 500 response. The same request under the credential "brevo-key",
with the same network, is answered 200: the two responses differ. The contact
handler, given the same string as its credential and an upstream that answers
`{"success":true}`, answers 200 with its fixed message. -/
theorem credential_relayed_to_client :
    Subscribe.serve samplePlatform ⟨"POST", .obj [("email", .str "a@b.com")]⟩ brokenKeyEnv
        (.responded ⟨201, .ok ""⟩) =
      ⟨⟨500, corsHeaders, some (.obj [("success", .bool false),
          ("error", .str ("Server error: Headers.append: \"sk-live\nSECRET\" " ++
            "is an invalid header value."))])⟩,
        [Subscribe.outbound "sk-live\nSECRET" (.str "a@b.com")]⟩ ∧
    Subscribe.serve samplePlatform ⟨"POST", .obj [("email", .str "a@b.com")]⟩ sampleEnv
        (.responded ⟨201, .ok ""⟩) =
      ⟨⟨200, corsHeaders, some (.obj [("success", .bool true),
          ("message", .str "Successfully subscribed!")])⟩,
        [Subscribe.outbound "brevo-key" (.str "a@b.com")]⟩ ∧
    strIncludes ("Server error: Headers.append: \"sk-live\nSECRET\" " ++
        "is an invalid header value.") "SECRET" = true ∧
    (Contact.serve samplePlatform ⟨"POST", sampleContactBody⟩ brokenKeyEnv
        (.responded ⟨200, .ok "\x7b\"success\":true\x7d"⟩)).response =
      ⟨200, corsHeaders, some (.obj [("success", .bool true),
          ("message", .str "Message sent successfully!")])⟩ := by
  refine ⟨?_, ?_, ?_, ?_⟩
  · exact subscribe_relays_header_error samplePlatform (.obj [("email", .str "a@b.com")])
      "a@b.com" "sk-live\nSECRET" brokenKeyEnv (.responded ⟨201, .ok ""⟩) rfl rfl (by decide) rfl
      (by decide) (by decide)
  · rfl
  · decide
  · rfl

/-! ## Theorems: shape of the response body -/

/-- Sending a failure object whose error is defined gives a shaped response. -/
theorem shaped_failure (code : Nat) (e : JsVal) (h : e.isUndefined = false) :
    Shaped (((setCors Response.fresh).status code).json (failure e)) := by
  intro b hb
  rw [json_failure code e h] at hb
  exact Or.inr ⟨e, h, (Option.some.inj hb).symm⟩

/-- Sending a success object gives a shaped response. -/
theorem shaped_success (code : Nat) (m : String) :
    Shaped (((setCors Response.fresh).status code).json (success m)) := by
  intro b hb
  rw [json_success code m] at hb
  exact Or.inl ⟨m, (Option.some.inj hb).symm⟩

/-- The value of `m || "text"` is never `undefined`. -/
theorem orElse_defined (m : JsVal) (text : String) :
    (m.orElse (.str text)).isUndefined = false := by
  unfold JsVal.orElse
  split
  · exact not_undefined_of_truthy m (by assumption)
  · rfl

/-- Every response the synchronous part of the subscribe handler sends is shaped. -/
theorem subscribe_beforeFetch_shaped (P : Platform) (req : Request) (env : Env) (r : Response)
    (h : Subscribe.beforeFetch P (setCors Response.fresh) req env = .ok (.respond r)) :
    Shaped r := by
  unfold Subscribe.beforeFetch at h
  split at h
  · cases h
  · split at h
    · cases h
    · cases h
      exact shaped_failure 400 _ rfl
    · split at h
      · cases h
        exact shaped_failure 500 _ rfl
      · split at h
        · cases h
          exact shaped_failure 500 _ rfl
        · cases h

/-- Every response the subscribe handler sends after its upstream call is shaped. -/
theorem subscribe_afterFetch_shaped (P : Platform) (up : Upstream) (r : Response)
    (h : Subscribe.afterFetch P (setCors Response.fresh) up = .ok r) : Shaped r := by
  unfold Subscribe.afterFetch at h
  split at h
  · cases h
  · split at h
    · cases h
    · split at h
      · cases h
        exact shaped_failure 500 _ rfl
      · split at h
        · cases h
          exact shaped_success 200 _
        · split at h
          · cases h
          · cases h
            exact shaped_success 200 _
          · split at h
            · cases h
            · cases h
              exact shaped_failure _ _ (orElse_defined _ _)

/-- Every response the synchronous part of the contact handler sends is shaped. -/
theorem contact_beforeFetch_shaped (P : Platform) (req : Request) (env : Env) (r : Response)
    (h : Contact.beforeFetch P (setCors Response.fresh) req env = .ok (.respond r)) :
    Shaped r := by
  unfold Contact.beforeFetch at h
  split at h
  · cases h
  · dsimp only at h
    split at h
    · cases h
      exact shaped_failure 400 _ rfl
    · split at h
      · cases h
        exact shaped_failure 500 _ rfl
      · split at h
        · cases h
          exact shaped_failure 500 _ rfl
        · cases h

/-- Every response the contact handler sends after its upstream call is shaped. -/
theorem contact_afterFetch_shaped (P : Platform) (up : Upstream) (r : Response)
    (h : Contact.afterFetch P (setCors Response.fresh) up = .ok r) : Shaped r := by
  unfold Contact.afterFetch at h
  split at h
  · cases h
  · split at h
    · cases h
    · split at h
      · cases h
      · split at h
        · cases h
          exact shaped_success 200 _
        · cases h
          exact shaped_failure 400 _ (orElse_defined _ _)

/-- Every response of the subscribe handler is shaped. -/
theorem subscribe_handler_shaped (P : Platform) (req : Request) (env : Env) (up : Upstream) :
    Shaped (Subscribe.handler P req env up).response := by
  unfold Subscribe.handler
  dsimp only
  split
  · intro b hb
    cases hb
  · split
    · exact shaped_failure 405 _ rfl
    · split
      · exact shaped_failure 500 _ rfl
      · exact subscribe_beforeFetch_shaped P req env _ (by assumption)
      · split
        · exact shaped_failure 500 _ rfl
        · exact subscribe_afterFetch_shaped P up _ (by assumption)

/-- Every response of the contact handler is shaped. -/
theorem contact_handler_shaped (P : Platform) (req : Request) (env : Env) (up : Upstream) :
    Shaped (Contact.handler P req env up).response := by
  unfold Contact.handler
  dsimp only
  split
  · intro b hb
    cases hb
  · split
    · exact shaped_failure 405 _ rfl
    · split
      · exact shaped_failure 500 _ rfl
      · exact contact_beforeFetch_shaped P req env _ (by assumption)
      · split
        · exact shaped_failure 500 _ rfl
        · exact contact_afterFetch_shaped P up _ (by assumption)

/-- C8. Every JSON body sent by either handler, on every path, is an object with
a boolean `success` and exactly one of `message` and `error`: it is
`{success:true, message}` with a string message, or `{success:false, error}` with
an error that is not `undefined` (so that the property is serialised). -/
theorem proxy_response_shape (P : Platform) (req : Request) (env : Env) (up : Upstream)
    (b : JsVal)
    (h : (Contact.handler P req env up).response.body = some b ∨
      (Subscribe.handler P req env up).response.body = some b) :
    (∃ m : String, b = .obj [("success", .bool true), ("message", .str m)]) ∨
    (∃ e : JsVal, e.isUndefined = false ∧ b = .obj [("success", .bool false), ("error", e)]) := by
  rcases h with h | h
  · exact contact_handler_shaped P req env up b h
  · exact subscribe_handler_shaped P req env up b h

/-- Witness of C8: the body of the 405 response of the contact handler. -/
theorem proxy_response_shape_witness :
    (∃ m : String, JsVal.obj [("success", .bool false), ("error", .str "Method not allowed")] =
      .obj [("success", .bool true), ("message", .str m)]) ∨
    (∃ e : JsVal, e.isUndefined = false ∧
      JsVal.obj [("success", .bool false), ("error", .str "Method not allowed")] =
        .obj [("success", .bool false), ("error", e)]) :=
  proxy_response_shape samplePlatform ⟨"GET", .undefined⟩ sampleEnv (.rejected ⟨"down"⟩)
    (.obj [("success", .bool false), ("error", .str "Method not allowed")]) (Or.inl rfl)

/-! ## Theorems: the submit listeners -/

/-- The validation of the contact form does not touch the button, the result
element, the timers, the effects or the values of the inputs. -/
theorem contactForm_validate_frame (c : ContactForm) :
    (c.validate).1.dom.effects = c.dom.effects ∧
    (c.validate).1.dom.submitButton = c.dom.submitButton ∧
    (c.validate).1.dom.result = c.dom.result ∧
    (c.validate).1.dom.hideTimers = c.dom.hideTimers ∧
    (c.validate).1.dom.scrolls = c.dom.scrolls ∧
    (c.validate).1.nameInput.value = c.nameInput.value ∧
    (c.validate).1.emailInput.value = c.emailInput.value ∧
    (c.validate).1.messageInput.value = c.messageInput.value := by
  unfold ContactForm.validate
  dsimp only
  split_ifs <;> simp [showError, clearError]

/-- A contact form whose email does not validate is not valid. -/
theorem contactForm_validate_invalid_email (c : ContactForm)
    (h : validateEmail (trim c.emailInput.value) = false) : (c.validate).2 = false := by
  unfold ContactForm.validate
  dsimp only
  simp [h]

/-- C9. For every state of the email signup form and of the contact form in
which the trimmed value of the email input does not match the email pattern,
and every outcome the network could produce, the submit listener returns before
its request: it issues no `fetch`, assigns neither `disabled` nor the label of
the submit button (the record of effects is unchanged and so is the button), and
leaves the result element, the timers and the values of the inputs as they
were; what it changes is confined to the error markers of the inputs. -/
theorem invalid_email_no_submission (e : EmailForm) (c : ContactForm) (out : FetchOutcome) :
    (validateEmail (trim e.emailInput.value) = false →
      (e.submitStart).2 = none ∧
      (e.submit out).dom.effects = e.dom.effects ∧
      (e.submit out).dom.submitButton = e.dom.submitButton ∧
      (e.submit out).dom.result = e.dom.result ∧
      (e.submit out).dom.hideTimers = e.dom.hideTimers ∧
      (e.submit out).dom.scrolls = e.dom.scrolls ∧
      (e.submit out).emailInput.value = e.emailInput.value) ∧
    (validateEmail (trim c.emailInput.value) = false →
      (c.submitStart).2 = none ∧
      (c.submit out).dom.effects = c.dom.effects ∧
      (c.submit out).dom.submitButton = c.dom.submitButton ∧
      (c.submit out).dom.result = c.dom.result ∧
      (c.submit out).dom.hideTimers = c.dom.hideTimers ∧
      (c.submit out).dom.scrolls = c.dom.scrolls ∧
      (c.submit out).nameInput.value = c.nameInput.value ∧
      (c.submit out).emailInput.value = c.emailInput.value ∧
      (c.submit out).messageInput.value = c.messageInput.value) := by
  refine ⟨?_, ?_⟩
  · intro h
    simp [EmailForm.submit, EmailForm.submitStart, h, showError]
  · intro h
    have hv := contactForm_validate_invalid_email c h
    have hf := contactForm_validate_frame c
    have hs : c.submitStart = ((c.validate).1, none) := by
      simp [ContactForm.submitStart, hv]
    have hsub : c.submit out = (c.validate).1 := by
      simp [ContactForm.submit, hs]
    rw [hsub, hs]
    exact ⟨rfl, hf⟩

/-- Witness of C9: the email form holding "not-an-email" and the contact form
holding the email "a@b" next to a name and a message. -/
theorem invalid_email_no_submission_witness :
    ((EmailForm.mk sampleDom (sampleInput "not-an-email" 1)).submit
        (.json (.obj [("success", .bool true)]))).dom.effects = [] ∧
    ((ContactForm.mk sampleDom (sampleInput "Ann" 1) (sampleInput " a@b " 2)
        (sampleInput "hi" 3)).submit (.json (.obj [("success", .bool true)]))).dom.effects = [] :=
  ⟨((invalid_email_no_submission (EmailForm.mk sampleDom (sampleInput "not-an-email" 1))
      (ContactForm.mk sampleDom (sampleInput "Ann" 1) (sampleInput " a@b " 2)
        (sampleInput "hi" 3)) (.json (.obj [("success", .bool true)]))).1 (by decide)).2.1,
   ((invalid_email_no_submission (EmailForm.mk sampleDom (sampleInput "not-an-email" 1))
      (ContactForm.mk sampleDom (sampleInput "Ann" 1) (sampleInput " a@b " 2)
        (sampleInput "hi" 3)) (.json (.obj [("success", .bool true)]))).2 (by decide)).2.1⟩

/-- Whatever the state the email form is in when its request settles, the
resumed listener leaves the button enabled with the label it is given. -/
theorem emailForm_submitResume_button (m : EmailForm) (originalText : String)
    (out : FetchOutcome) :
    (m.submitResume originalText out).dom.submitButton = ⟨false, originalText⟩ := by
  simp [EmailForm.submitResume, setButton]

/-- Whatever the state the contact form is in when its request settles, the
resumed listener leaves the button enabled with the label it is given. -/
theorem contactForm_submitResume_button (m : ContactForm) (originalText : String)
    (out : FetchOutcome) :
    (m.submitResume originalText out).dom.submitButton = ⟨false, originalText⟩ := by
  simp [ContactForm.submitResume, setButton]

/-- A contact form with a name, a matching email and a message is valid. -/
theorem contactForm_validate_valid (c : ContactForm) (hn : trim c.nameInput.value ≠ "")
    (he : validateEmail (trim c.emailInput.value) = true)
    (hm : trim c.messageInput.value ≠ "") : (c.validate).2 = true := by
  unfold ContactForm.validate
  dsimp only
  simp [hn, he, hm]

/-- C10. For every submission that passes validation (email form: the trimmed
email matches the pattern; contact form: in addition the trimmed name and message
are not empty) and every outcome of the request (a response with truthy
`success`, with falsy `success`, a rejected `fetch`, a body that fails to parse),
the listener suspends holding the label the button had before the submission,
and when it finishes the button is enabled and carries exactly that label; this
holds also when the form changed while the request was in flight. -/
theorem submit_restores_button (e : EmailForm) (c : ContactForm) (out : FetchOutcome) :
    (validateEmail (trim e.emailInput.value) = true →
      (e.submitStart).2 = some e.dom.submitButton.textContent ∧
      (e.submit out).dom.submitButton = ⟨false, e.dom.submitButton.textContent⟩ ∧
      ∀ m : EmailForm, (m.submitResume e.dom.submitButton.textContent out).dom.submitButton =
        ⟨false, e.dom.submitButton.textContent⟩) ∧
    (trim c.nameInput.value ≠ "" → validateEmail (trim c.emailInput.value) = true →
      trim c.messageInput.value ≠ "" →
      (c.submitStart).2 = some c.dom.submitButton.textContent ∧
      (c.submit out).dom.submitButton = ⟨false, c.dom.submitButton.textContent⟩ ∧
      ∀ m : ContactForm, (m.submitResume c.dom.submitButton.textContent out).dom.submitButton =
        ⟨false, c.dom.submitButton.textContent⟩) := by
  refine ⟨?_, ?_⟩
  · intro h
    have hs : (e.submitStart).2 = some e.dom.submitButton.textContent := by
      simp [EmailForm.submitStart, h, clearError]
    refine ⟨hs, ?_, fun m => emailForm_submitResume_button m _ out⟩
    unfold EmailForm.submit
    split
    · rename_i heq
      rw [heq] at hs
      cases hs
    · rename_i s₁ originalText heq
      rw [heq] at hs
      cases hs
      exact emailForm_submitResume_button s₁ _ out
  · intro hn he hm
    have hv := contactForm_validate_valid c hn he hm
    have hf := contactForm_validate_frame c
    have hs : (c.submitStart).2 = some c.dom.submitButton.textContent := by
      simp [ContactForm.submitStart, hv, hf.2.1]
    refine ⟨hs, ?_, fun m => contactForm_submitResume_button m _ out⟩
    unfold ContactForm.submit
    split
    · rename_i heq
      rw [heq] at hs
      cases hs
    · rename_i s₁ originalText heq
      rw [heq] at hs
      cases hs
      exact contactForm_submitResume_button s₁ _ out

/-- Witness of C10: both forms filled in with valid values, the request
rejected. -/
theorem submit_restores_button_witness :
    ((EmailForm.mk sampleDom (sampleInput " a@b.com " 1)).submit .rejected).dom.submitButton =
      ⟨false, "Notify Me"⟩ ∧
    ((ContactForm.mk sampleDom (sampleInput "Ann" 1) (sampleInput "a@b.com" 2)
        (sampleInput "hi" 3)).submit .rejected).dom.submitButton = ⟨false, "Notify Me"⟩ :=
  ⟨((submit_restores_button (EmailForm.mk sampleDom (sampleInput " a@b.com " 1))
      (ContactForm.mk sampleDom (sampleInput "Ann" 1) (sampleInput "a@b.com" 2)
        (sampleInput "hi" 3)) .rejected).1 (by decide)).2.1,
   ((submit_restores_button (EmailForm.mk sampleDom (sampleInput " a@b.com " 1))
      (ContactForm.mk sampleDom (sampleInput "Ann" 1) (sampleInput "a@b.com" 2)
        (sampleInput "hi" 3)) .rejected).2 (by decide) (by decide) (by decide)).2.1⟩

end FootballNews
